import Mathlib

/-!
Shallow embedding of the CVAT bulk task-creation pipeline
(`cva_proj_multiprocess.py` and `cva_proj_slow.py`).

The pipeline reads a CSV of rows `(ID, URL, Labels)`, builds one task
specification per row, submits each spec to a remote task-creation client,
and reports successes and failures.  The remote client (the CVAT SDK) is
external; it is modelled as an abstract function that either returns a task
id or raises with a message string.  Python exceptions are modelled with
`Except String`; a raised exception is an `Except.error` carrying `str(e)`.
All CSV cell values are modelled as strings.
-/

set_option autoImplicit false

namespace Cvat

/-- One attribute of a label, as in the attribute dictionaries of
`create_single_task` / `create_task` (fields `name`, `mutable`,
`input_type`, `values`, `required`). -/
structure AttributeSpec where
  name : String
  mutable : Bool
  input_type : String
  values : List String
  required : Bool
deriving DecidableEq, Repr

/-- One label of a task spec: a `name` and a (possibly empty) list of
attributes, as in the dictionaries built by `parse_labels` and the
appended description label. -/
structure LabelSpec where
  name : String
  attributes : List AttributeSpec
deriving DecidableEq, Repr

/-- The task specification passed to the client
(`task_spec = {'name': ..., 'labels': ...}`). -/
structure TaskSpec where
  name : String
  labels : List LabelSpec
deriving DecidableEq, Repr

/-- Python whitespace as stripped by `str.strip()`:
space, tab, newline, carriage return, vertical tab, form feed. -/
def isPySpace (c : Char) : Bool :=
  c == ' ' || c == '\t' || c == '\n' || c == '\r' || c == '\x0b' || c == '\x0c'

/-- `str.strip()` on a list of characters: drop leading and trailing
whitespace. -/
def pyStrip (s : List Char) : List Char :=
  ((s.dropWhile isPySpace).reverse.dropWhile isPySpace).reverse

/-- Python `str.split(',')` on a list of characters: split at every comma,
keeping empty pieces; the empty string yields one empty piece. -/
def splitComma : List Char → List (List Char)
  | [] => [[]]
  | c :: cs =>
    match splitComma cs with
    | [] => [[]]
    | t :: ts => if c == ',' then [] :: t :: ts else (c :: t) :: ts

/-- `CVATTaskCreator.parse_labels` (identical in both variants):
`[{'name': label.strip()} for label in labels_str.split(',')]`. -/
def parse_labels (labels_str : String) : List LabelSpec :=
  (splitComma labels_str.data).map (fun tok => { name := ⟨pyStrip tok⟩, attributes := [] })

/-- The fixed description label appended by
`cva_proj_multiprocess.py:create_single_task` (lines 55-80). -/
def descriptionLabel : LabelSpec :=
  { name := "description",
    attributes :=
      [ { name := "Title", mutable := true, input_type := "text",
          values := [""], required := true },
        { name := "Image_Description", mutable := true, input_type := "text",
          values := [""], required := true },
        { name := "Scene_Description", mutable := true, input_type := "text",
          values := [""], required := true } ] }

/-- The fixed `Descriptions` label appended by
`cva_proj_slow.py:create_task` (lines 67-92). -/
def descriptionsLabelSlow : LabelSpec :=
  { name := "Descriptions",
    attributes :=
      [ { name := "Title", mutable := true, input_type := "text",
          values := [""], required := true },
        { name := "English_Image_Description", mutable := true, input_type := "text",
          values := [""], required := true },
        { name := "Scene_Description", mutable := true, input_type := "text",
          values := [""], required := true } ] }

/-- A well-formed CSV row: the three columns the tool reads. -/
structure SourceRecord where
  id : String
  url : String
  labels : String
deriving DecidableEq, Repr

/-- Payload construction of `create_single_task` (multiprocess variant,
lines 54-85): parse the labels, append the description label, and name the
task `Segmentation_<ID>`. -/
def build_task_spec (r : SourceRecord) : TaskSpec :=
  { name := "Segmentation_" ++ r.id,
    labels := parse_labels r.labels ++ [descriptionLabel] }

/-- Payload construction of `create_task` (slow variant, lines 64-97):
same shape, but the appended label is `Descriptions`. -/
def build_task_spec_slow (r : SourceRecord) : TaskSpec :=
  { name := "Segmentation_" ++ r.id,
    labels := parse_labels r.labels ++ [descriptionsLabelSlow] }

/-- Per-record outcome dictionary returned by `create_single_task`:
`{'success': True, 'id': ..., 'task_id': ...}` or
`{'success': False, 'id': ..., 'error': ...}`. -/
inductive Outcome where
  | success (id : String) (task_id : Nat)
  | failure (id : String) (error : String)
deriving DecidableEq, Repr

/-- The `id` field present in both outcome shapes. -/
def Outcome.outcomeId : Outcome → String
  | .success i _ => i
  | .failure i _ => i

/-- The `success` flag of the outcome dictionary. -/
def Outcome.isSuccess : Outcome → Bool
  | .success _ _ => true
  | .failure _ _ => false

/-- The remote task client (`client.tasks.create_from_data` with
`resource_type=ResourceType.REMOTE` and `resources=[url]`), as a black
box: given the task spec and the image URL it returns the created task's
id, or raises with a message. -/
def Client : Type := TaskSpec → String → Except String Nat

/-- `create_single_task` on a well-formed row: try the client call; on
success return the success dictionary; on any exception return the failure
dictionary carrying `str(e)` and the row's `ID` (lines 48-105). -/
def create_single_task (client : Client) (r : SourceRecord) : Outcome :=
  match client (build_task_spec r) r.url with
  | .ok task_id => .success r.id task_id
  | .error e => .failure r.id e

/-- A row dictionary as produced by `data.to_dict('records')`: column name
to cell value.  Modelled as an association list; a missing column is a
missing key, and indexing it raises `KeyError`. -/
def RawRow : Type := List (String × String)

/-- Dictionary indexing `row[k]`: the value when the key is present,
otherwise a raised `KeyError` (whose `str(e)` we model as
`"KeyError: " ++ k`). -/
def keyLookup (row : RawRow) (k : String) : Except String String :=
  match row.find? (fun p => p.1 == k) with
  | some p => Except.ok p.2
  | none => Except.error ("KeyError: " ++ k)

/-- The body of the `try` block of `create_single_task` (multiprocess
variant, lines 50-101), over a raw row dictionary.  `setup` models
`self.setup_client()` (which may itself raise); the column accesses happen
in source order: `row['Labels']` (line 54), `row['ID']` (line 83, in the
task-spec name), `row['URL']` (line 91, in the client call).  Any raised
exception is the `Except.error` case. -/
def task_attempt (setup : Except String Client) (row : RawRow) : Except String Outcome := do
  let client ← setup
  let labels_str ← keyLookup row "Labels"
  let labels := parse_labels labels_str ++ [descriptionLabel]
  let id ← keyLookup row "ID"
  let task_spec : TaskSpec := { name := "Segmentation_" ++ id, labels := labels }
  let url ← keyLookup row "URL"
  let task_id ← client task_spec url
  pure (Outcome.success id task_id)

/-- `create_single_task` over a raw row dictionary, exception handling
included (lines 103-105): an exception from the body is caught and turned
into the failure dictionary `{'success': False, 'id': row['ID'],
'error': str(e)}`; the handler itself evaluates `row['ID']`, so when the
`ID` column is absent the handler raises and the exception escapes the
worker (the outer `Except.error`). -/
def create_single_task_raw (setup : Except String Client) (row : RawRow) : Except String Outcome :=
  match task_attempt setup row with
  | .ok o => .ok o
  | .error e =>
    match keyLookup row "ID" with
    | .ok id => .ok (.failure id e)
    | .error e2 => .error e2

/-- An input CSV file: header row and data rows. -/
structure CsvFile where
  header : List String
  rows : List (List String)
deriving DecidableEq, Repr

/-- `pd.read_csv` followed by `data.to_dict('records')`: raises (modelled
message `"IOError"`) when the file cannot be opened; otherwise each data
row becomes a dictionary keyed by the header.  No column validation is
performed. -/
def read_csv : Option CsvFile → Except String (List RawRow)
  | none => Except.error "IOError"
  | some f => Except.ok (f.rows.map (fun r => f.header.zip r))

/-- `CVATTaskCreator.load_data` of the slow variant (lines 45-53): calls
`pd.read_csv`, and on any exception logs and re-raises — semantically the
same as `read_csv`. -/
def load_data (file : Option CsvFile) : Except String (List RawRow) :=
  read_csv file

/-- `multiprocessing.Pool.map` (line 125): applies the worker function to
every element, returning the results in the input order; an exception
escaping a worker is re-raised by `map` in the parent. -/
def pool_map (f : RawRow → Except String Outcome) : List RawRow → Except String (List Outcome)
  | [] => Except.ok []
  | r :: rs => do
    let o ← f r
    let os ← pool_map f rs
    pure (o :: os)

/-- The worker-pool size of `run` (line 120):
`num_processes = min(cpu_count(), 4)`. -/
def num_processes (cpu_count : Nat) : Nat :=
  min cpu_count 4

/-- The loading-plus-dispatch part of `run` (lines 113-125): read the CSV
and map `create_single_task` over the row dictionaries with the pool. -/
def dispatch (setup : Except String Client) (file : Option CsvFile) :
    Except String (List Outcome) := do
  let data ← read_csv file
  pool_map (create_single_task_raw setup) data

/-- `successes = [r for r in results if r['success']]` (line 128). -/
def successes (results : List Outcome) : List Outcome :=
  results.filter Outcome.isSuccess

/-- `failures = [r for r in results if not r['success']]` (line 129). -/
def failures (results : List Outcome) : List Outcome :=
  results.filter (fun r => !r.isSuccess)

/-- The field names of the success CSV (line 137). -/
def success_fieldnames : List String :=
  ["Task ID", "Task URL"]

/-- One row of the success CSV (lines 140-143): the task id and the task
URL obtained by formatting the task id into the fixed web-URL template. -/
def success_row (task_id : Nat) : String × String :=
  (toString task_id, "https://app.cvat.ai/tasks/" ++ toString task_id)

/-- The rows written to the success CSV: one `success_row` per success
outcome (lines 139-143). -/
def success_report (ss : List Outcome) : List (String × String) :=
  ss.filterMap (fun o =>
    match o with
    | .success _ task_id => some (success_row task_id)
    | .failure _ _ => none)

/-- One line of the failure log (line 151):
`f"ID: {failure['id']}, Error: {failure.get('error', 'Unknown error')}"`. -/
def failure_line (id error : String) : String :=
  "ID: " ++ id ++ ", Error: " ++ error

/-- The lines written to the failure log: one `failure_line` per failure
outcome (lines 150-151). -/
def failure_report (fs : List Outcome) : List String :=
  fs.filterMap (fun o =>
    match o with
    | .success _ _ => none
    | .failure id e => some (failure_line id e))

/-- The reporting part of `run` (lines 133-152): writes the success CSV
only when `successes` is non-empty and the failure log only when
`failures` is non-empty, in that order.  A filesystem failure while
writing is an exception raised inside `run`'s `try` block; `sWriteFails`
and `fWriteFails` say whether the respective `open`/write raises.  Returns
the artifacts written (`none` = file not created). -/
def report (sWriteFails fWriteFails : Bool) (results : List Outcome) :
    Except String (Option (List (String × String)) × Option (List String)) := do
  let ss := successes results
  let fs := failures results
  let successArtifact ←
    if ss.isEmpty then pure none
    else if sWriteFails then Except.error "write failed: successes"
    else pure (some (success_report ss))
  let failureArtifact ←
    if fs.isEmpty then pure none
    else if fWriteFails then Except.error "write failed: failures"
    else pure (some (failure_report fs))
  pure (successArtifact, failureArtifact)

/-- The observable result of a completed `run`. -/
structure RunResult where
  outcomes : List Outcome
  successArtifact : Option (List (String × String))
  failureArtifact : Option (List String)
deriving DecidableEq, Repr

/-- `CVATTaskCreator.run` of the multiprocess variant (lines 110-156):
load, dispatch, report.  The surrounding `try`/`except` logs and
**re-raises** any exception (lines 154-156), so an exception anywhere —
loading, a worker, or a report write — propagates out of `run` and aborts
the process: the `Except.error` case. -/
def run (setup : Except String Client) (sWriteFails fWriteFails : Bool)
    (file : Option CsvFile) : Except String RunResult := do
  let results ← dispatch setup file
  let artifacts ← report sWriteFails fWriteFails results
  pure { outcomes := results,
         successArtifact := artifacts.1,
         failureArtifact := artifacts.2 }

/-- A well-formed row as a row dictionary, as `read_csv` produces it from
a CSV with header `ID, URL, Labels`. -/
def SourceRecord.toRaw (r : SourceRecord) : RawRow :=
  [("ID", r.id), ("URL", r.url), ("Labels", r.labels)]

/-- A well-formed input file holding the given records. -/
def toCsv (records : List SourceRecord) : CsvFile :=
  { header := ["ID", "URL", "Labels"],
    rows := records.map (fun r => [r.id, r.url, r.labels]) }

/-- A concrete client used to exercise the pipeline: raises for the task
named `Segmentation_B`, succeeds with task id 3 otherwise. -/
def demoClient : Client := fun spec _ =>
  if spec.name == "Segmentation_B" then Except.error "boom" else Except.ok 3

/-- Two concrete well-formed records, the second of which `demoClient`
rejects. -/
def demoRecords : List SourceRecord :=
  [{ id := "A", url := "u", labels := "l" }, { id := "B", url := "v", labels := "m" }]

/-- An instant of a `Pool(n)` run: each of the `n` worker processes is a
sequential process, so at any instant it is executing at most one
`create_single_task` call; the map gives, per worker, the index of the
record whose submission it is currently executing, if any. -/
def WorkerInstant (n : Nat) : Type :=
  Fin n → Option Nat

/-- The number of submission calls executing simultaneously at an
instant: the number of busy workers. -/
def inFlightCount {n : Nat} (running : WorkerInstant n) : Nat :=
  (Finset.univ.filter (fun i => (running i).isSome)).card

/-- Splitting on commas never yields an empty list of pieces. -/
theorem splitComma_ne_nil (l : List Char) : splitComma l ≠ [] := by
  cases l with
  | nil => simp [splitComma]
  | cons c cs =>
    cases h : splitComma cs with
    | nil => simp [splitComma, h]
    | cons t ts =>
      simp only [splitComma, h]
      cases hc : c == ',' <;> simp

/-- `task_attempt` on a well-formed row with a working client setup: only
the client call can fail. -/
theorem task_attempt_toRaw (client : Client) (r : SourceRecord) :
    task_attempt (Except.ok client) r.toRaw =
      Except.bind (client (build_task_spec r) r.url)
        (fun task_id => Except.ok (Outcome.success r.id task_id)) :=
  rfl

/-- On a well-formed row, `create_single_task_raw` never lets an exception
escape and agrees with `create_single_task`. -/
theorem create_single_task_raw_toRaw (client : Client) (r : SourceRecord) :
    create_single_task_raw (Except.ok client) r.toRaw =
      Except.ok (create_single_task client r) := by
  unfold create_single_task_raw create_single_task
  rw [task_attempt_toRaw]
  cases h : client (build_task_spec r) r.url <;> rfl

/-- `Pool.map` over well-formed rows returns one outcome per row, in
input order. -/
theorem pool_map_toRaw (client : Client) (records : List SourceRecord) :
    pool_map (create_single_task_raw (Except.ok client)) (records.map SourceRecord.toRaw) =
      Except.ok (records.map (create_single_task client)) := by
  induction records with
  | nil => rfl
  | cons r rs ih =>
    simp only [List.map_cons, pool_map, create_single_task_raw_toRaw, ih]
    rfl

/-- Reading a well-formed CSV yields the row dictionaries of its records. -/
theorem read_csv_toCsv (records : List SourceRecord) :
    read_csv (some (toCsv records)) = Except.ok (records.map SourceRecord.toRaw) := by
  simp only [read_csv, toCsv, List.map_map]
  rfl

/-- Loading plus dispatch on a well-formed file: one outcome per record,
in input order. -/
theorem dispatch_toCsv (client : Client) (records : List SourceRecord) :
    dispatch (Except.ok client) (some (toCsv records)) =
      Except.ok (records.map (create_single_task client)) := by
  simp only [dispatch, read_csv_toCsv]
  exact pool_map_toRaw client records

/-- Every outcome carries the id of its record. -/
theorem outcomeId_create_single_task (client : Client) (r : SourceRecord) :
    (create_single_task client r).outcomeId = r.id := by
  cases h : client (build_task_spec r) r.url <;> simp [create_single_task, h, Outcome.outcomeId]

/-- The success CSV has exactly one row per outcome when all outcomes in
the list are successes. -/
theorem success_report_length (l : List Outcome) (h : ∀ o ∈ l, o.isSuccess = true) :
    (success_report l).length = l.length := by
  induction l with
  | nil => rfl
  | cons o os ih =>
    have ho := h o (by simp)
    cases o with
    | success i t =>
      simpa [success_report] using ih (fun o' ho' => h o' (by simp [ho']))
    | failure i e => simp [Outcome.isSuccess] at ho

/-- The failure log has exactly one line per outcome when all outcomes in
the list are failures. -/
theorem failure_report_length (l : List Outcome) (h : ∀ o ∈ l, o.isSuccess = false) :
    (failure_report l).length = l.length := by
  induction l with
  | nil => rfl
  | cons o os ih =>
    have ho := h o (by simp)
    cases o with
    | success i t => simp [Outcome.isSuccess] at ho
    | failure i e =>
      simpa [failure_report] using ih (fun o' ho' => h o' (by simp [ho']))

/-- C1, counterexample: on a one-record input whose submission succeeds
with task id 7, the run completes, yet the record id `A1` appears in
neither output artifact: the success CSV row holds only the task id `7`
and the task URL (neither cell equals `A1`, nor even contains it), and no
failure log is written at all.  So "every record id appears in exactly one
of the two output artifacts" is false. -/
theorem C1_counterexample :
    run (Except.ok (fun _ _ => Except.ok 7)) false false
        (some (toCsv [{ id := "A1", url := "u", labels := "lab" }])) =
      Except.ok { outcomes := [Outcome.success "A1" 7],
                  successArtifact := some [("7", "https://app.cvat.ai/tasks/7")],
                  failureArtifact := none } ∧
    ("7" ≠ "A1" ∧ "https://app.cvat.ai/tasks/7" ≠ "A1") ∧
    ¬ "A1".data <:+: "https://app.cvat.ai/tasks/7".data := by
  exact ⟨rfl, by decide, by decide⟩

/-- C1, amended: every record yields exactly one outcome — success or
failure, never both, never neither — in its own input position, so the
number of outcomes equals the number of records; the success and failure
lists partition the outcomes; every failed record's id is in the failure
log, and each success contributes exactly one row to the success CSV
(identified by remote task id, not by record id). -/
theorem C1_outcome_partition (client : Client) (records : List SourceRecord) :
    dispatch (Except.ok client) (some (toCsv records)) =
      Except.ok (records.map (create_single_task client)) ∧
    (records.map (create_single_task client)).length = records.length ∧
    (∀ i : Nat, ((records.map (create_single_task client))[i]?).map Outcome.outcomeId =
      (records[i]?).map SourceRecord.id) ∧
    (successes (records.map (create_single_task client)) ++
       failures (records.map (create_single_task client))).Perm
      (records.map (create_single_task client)) ∧
    (∀ o ∈ records.map (create_single_task client),
      (o.isSuccess = true ∧ o ∈ successes (records.map (create_single_task client)) ∧
        o ∉ failures (records.map (create_single_task client))) ∨
      (o.isSuccess = false ∧ o ∈ failures (records.map (create_single_task client)) ∧
        o ∉ successes (records.map (create_single_task client)))) ∧
    (∀ id e, Outcome.failure id e ∈ records.map (create_single_task client) →
      failure_line id e ∈ failure_report (failures (records.map (create_single_task client)))) ∧
    (success_report (successes (records.map (create_single_task client)))).length =
      (successes (records.map (create_single_task client))).length := by
  refine ⟨dispatch_toCsv client records, List.length_map _ _, ?_, ?_, ?_, ?_, ?_⟩
  · intro i
    cases h : records[i]? <;> simp [List.getElem?_map, h, outcomeId_create_single_task]
  · exact List.filter_append_perm Outcome.isSuccess _
  · intro o ho
    cases h : o.isSuccess with
    | true =>
      refine Or.inl ⟨rfl, List.mem_filter.mpr ⟨ho, h⟩, fun hmem => ?_⟩
      have := (List.mem_filter.mp hmem).2
      simp [h] at this
    | false =>
      refine Or.inr ⟨rfl, List.mem_filter.mpr ⟨ho, by simp [h]⟩, fun hmem => ?_⟩
      have := (List.mem_filter.mp hmem).2
      simp [h] at this
  · intro id e hmem
    refine List.mem_filterMap.mpr ⟨Outcome.failure id e, ?_, rfl⟩
    exact List.mem_filter.mpr ⟨hmem, by simp [Outcome.isSuccess]⟩
  · exact success_report_length _ (fun o ho => (List.mem_filter.mp ho).2)

/-- C1, witness: the amended theorem applied to the concrete client and
records, instantiating the failure-log clause for record `B`. -/
theorem C1_outcome_partition_witness :
    failure_line "B" "boom" ∈
      failure_report (failures (demoRecords.map (create_single_task demoClient))) :=
  (C1_outcome_partition demoClient demoRecords).2.2.2.2.2.1 "B" "boom" (by decide)

/-- C2: if the client raises with message `e` on record `k`, the worker
returns normally with a `Failure` outcome carrying record `k`'s id and
`e`; the whole batch still completes with one terminal outcome per record,
each in its record's position and carrying its record's id, and the
failure log contains record `k`'s line. -/
theorem C2_fault_isolation (client : Client) (records : List SourceRecord) (k : Nat)
    (hk : k < records.length) (e : String)
    (hfail : client (build_task_spec records[k]) records[k].url = Except.error e) :
    create_single_task client records[k] = Outcome.failure records[k].id e ∧
    dispatch (Except.ok client) (some (toCsv records)) =
      Except.ok (records.map (create_single_task client)) ∧
    (records.map (create_single_task client)).length = records.length ∧
    (records.map (create_single_task client))[k]? =
      some (Outcome.failure records[k].id e) ∧
    (∀ j (hj : j < records.length), ∃ o,
      (records.map (create_single_task client))[j]? = some o ∧
      o.outcomeId = records[j].id) ∧
    failure_line records[k].id e ∈
      failure_report (failures (records.map (create_single_task client))) := by
  have hcreate : create_single_task client records[k] = Outcome.failure records[k].id e := by
    simp [create_single_task, hfail]
  have hgetk : (records.map (create_single_task client))[k]? =
      some (Outcome.failure records[k].id e) := by
    simp [List.getElem?_map, List.getElem?_eq_getElem hk, hcreate]
  refine ⟨hcreate, dispatch_toCsv client records, List.length_map _ _, hgetk, ?_, ?_⟩
  · intro j hj
    refine ⟨create_single_task client records[j], ?_, outcomeId_create_single_task client _⟩
    simp [List.getElem?_map, List.getElem?_eq_getElem hj]
  · have hmem : Outcome.failure records[k].id e ∈ records.map (create_single_task client) := by
      have := List.getElem?_mem hgetk
      exact this
    refine List.mem_filterMap.mpr ⟨Outcome.failure records[k].id e, ?_, rfl⟩
    exact List.mem_filter.mpr ⟨hmem, by simp [Outcome.isSuccess]⟩

/-- C2, witness: the theorem applied to the concrete client and records,
with the client raising `boom` for record 1 (`B`). -/
theorem C2_fault_isolation_witness :
    1 < demoRecords.length ∧
    demoClient (build_task_spec demoRecords[1]) demoRecords[1].url = Except.error "boom" ∧
    failure_line "B" "boom" ∈
      failure_report (failures (demoRecords.map (create_single_task demoClient))) :=
  ⟨by decide, rfl,
    (C2_fault_isolation demoClient demoRecords 1 (by decide) "boom" rfl).2.2.2.2.2⟩

/-- C3: payload construction is a total function of the record; the task
name is `Segmentation_` plus the record id; in both variants the label
sequence always ends with the fixed descriptive label, which carries
exactly the three fixed mutable, required, text attributes with default
value `[""]`, regardless of the raw label string. -/
theorem C3_payload_builder (r : SourceRecord) :
    (build_task_spec r).name = "Segmentation_" ++ r.id ∧
    (build_task_spec r).labels.getLast? = some descriptionLabel ∧
    descriptionLabel.attributes =
      [ { name := "Title", mutable := true, input_type := "text",
          values := [""], required := true },
        { name := "Image_Description", mutable := true, input_type := "text",
          values := [""], required := true },
        { name := "Scene_Description", mutable := true, input_type := "text",
          values := [""], required := true } ] ∧
    (build_task_spec_slow r).name = "Segmentation_" ++ r.id ∧
    (build_task_spec_slow r).labels.getLast? = some descriptionsLabelSlow ∧
    descriptionsLabelSlow.attributes =
      [ { name := "Title", mutable := true, input_type := "text",
          values := [""], required := true },
        { name := "English_Image_Description", mutable := true, input_type := "text",
          values := [""], required := true },
        { name := "Scene_Description", mutable := true, input_type := "text",
          values := [""], required := true } ] :=
  ⟨rfl, List.getLast?_concat _, rfl, rfl, List.getLast?_concat _, rfl⟩

/-- C4: label parsing splits on commas and trims whitespace, each token
becoming a label with no attributes: `"a, b ,c"` yields exactly the labels
`a`, `b`, `c` in that order, and `""` yields exactly one empty-named
label. -/
theorem C4_label_parsing :
    parse_labels "a, b ,c" =
      [ { name := "a", attributes := [] },
        { name := "b", attributes := [] },
        { name := "c", attributes := [] } ] ∧
    parse_labels "" = [{ name := "", attributes := [] }] := by
  exact ⟨by decide, by decide⟩

/-- C5, counterexample: on a file whose `Labels` column is absent (header
`ID, URL` only), loading raises nothing — there is no schema check — and
the run proceeds through dispatch to normal completion, the missing column
surfacing only as a caught per-row `KeyError` failure outcome.  So "fails
with a SchemaError — fatally, before any dispatch — when a required column
is absent" is false. -/
theorem C5_counterexample :
    read_csv (some { header := ["ID", "URL"], rows := [["x", "u"]] }) =
      Except.ok [[("ID", "x"), ("URL", "u")]] ∧
    run (Except.ok (fun _ _ => Except.ok 1)) false false
        (some { header := ["ID", "URL"], rows := [["x", "u"]] }) =
      Except.ok { outcomes := [Outcome.failure "x" "KeyError: Labels"],
                  successArtifact := none,
                  failureArtifact := some ["ID: x, Error: KeyError: Labels"] } := by
  exact ⟨rfl, rfl⟩

/-- C5, amended: loading fails (and the run aborts) when the file cannot
be opened; but no column validation happens at load — any readable file
loads, and an absent required column does not abort the run before
dispatch: the rows are dispatched and the absence surfaces per record
(for an absent `Labels` column, each row yields a caught `KeyError`
failure outcome). -/
theorem C5_input_errors (setup : Except String Client) (sW fW : Bool) :
    run setup sW fW none = Except.error "IOError" ∧
    load_data none = Except.error "IOError" ∧
    (∀ f : CsvFile, read_csv (some f) =
      Except.ok (f.rows.map (fun r => f.header.zip r))) ∧
    (∀ client : Client, ∀ id url : String,
      dispatch (Except.ok client) (some { header := ["ID", "URL"], rows := [[id, url]] }) =
        Except.ok [Outcome.failure id "KeyError: Labels"]) := by
  exact ⟨rfl, rfl, fun f => rfl, fun client id url => rfl⟩

/-- C6, counterexample: on a run with one success and one failure where
the success-CSV write raises, the run aborts with that exception (it is
re-raised at lines 154-156), so the failure log — which had a line to
write, with a perfectly working writer — is never attempted.  So "a
failure while writing one artifact neither prevents the other artifact
from being attempted nor crashes the overall run" is false. -/
theorem C6_counterexample :
    run (Except.ok demoClient) true false (some (toCsv demoRecords)) =
      Except.error "write failed: successes" ∧
    failures (demoRecords.map (create_single_task demoClient)) =
      [Outcome.failure "B" "boom"] := by
  exact ⟨rfl, by decide⟩

/-- C6, amended: no artifact whose outcome list is empty is written; but
write failures are not isolated — an exception while writing the success
CSV propagates out of `run` (logged and re-raised), aborting the run
before the failure log is attempted. -/
theorem C6_report_isolation (setup : Except String Client) (sW fW : Bool)
    (file : Option CsvFile) (results : List Outcome) :
    (successes results = [] → ∀ a b, report sW fW results = Except.ok (a, b) → a = none) ∧
    (failures results = [] → ∀ a b, report sW fW results = Except.ok (a, b) → b = none) ∧
    (dispatch setup file = Except.ok results → successes results ≠ [] → sW = true →
      run setup sW fW file = Except.error "write failed: successes") := by
  refine ⟨?_, ?_, ?_⟩
  · intro h a b hr
    by_cases hfs : (failures results).isEmpty
    · simp [report, h, hfs, pure, Except.pure, bind, Except.bind] at hr
      exact hr.1.symm
    · cases fW with
      | true => simp [report, h, hfs] at hr
      | false =>
        simp [report, h, hfs, pure, Except.pure, bind, Except.bind] at hr
        exact hr.1.symm
  · intro h a b hr
    have hfs : (failures results).isEmpty = true := by simp [h]
    by_cases hss : (successes results).isEmpty
    · simp [report, hss, hfs, pure, Except.pure, bind, Except.bind] at hr
      exact hr.2.symm
    · cases sW with
      | true => simp [report, hss, hfs] at hr
      | false =>
        simp [report, hss, hfs, pure, Except.pure, bind, Except.bind] at hr
        exact hr.2.symm
  · intro hd hne hsw
    subst hsw
    simp [run, hd, report, hne, bind, Except.bind, Functor.map, Except.map]

/-- C6, witness: the amended theorem's crash clause applied to the
concrete client and records, with the success-CSV write failing. -/
theorem C6_report_isolation_witness :
    run (Except.ok demoClient) true false (some (toCsv demoRecords)) =
      Except.error "write failed: successes" :=
  (C6_report_isolation (Except.ok demoClient) true false (some (toCsv demoRecords))
      (demoRecords.map (create_single_task demoClient))).2.2
    (dispatch_toCsv demoClient demoRecords) (by decide) rfl

/-- C7: the success report has the fixed field names `Task ID` and
`Task URL` and one row per success, the URL cell formatting the task id
into the fixed web-URL template; the failure report has one line per
failure of the exact form `ID: <id>, Error: <message>`. -/
theorem C7_report_formats (os : List Outcome) :
    success_fieldnames = ["Task ID", "Task URL"] ∧
    (success_report (successes os)).length = (successes os).length ∧
    (failure_report (failures os)).length = (failures os).length ∧
    (∀ id task_id, Outcome.success id task_id ∈ successes os →
      (toString task_id, "https://app.cvat.ai/tasks/" ++ toString task_id) ∈
        success_report (successes os)) ∧
    (∀ id e, Outcome.failure id e ∈ failures os →
      ("ID: " ++ id ++ ", Error: " ++ e) ∈ failure_report (failures os)) := by
  refine ⟨rfl, ?_, ?_, ?_, ?_⟩
  · exact success_report_length _ (fun o ho => (List.mem_filter.mp ho).2)
  · refine failure_report_length _ (fun o ho => ?_)
    have := (List.mem_filter.mp ho).2
    simpa using this
  · intro id task_id hmem
    exact List.mem_filterMap.mpr ⟨Outcome.success id task_id, hmem, rfl⟩
  · intro id e hmem
    exact List.mem_filterMap.mpr ⟨Outcome.failure id e, hmem, rfl⟩

/-- C7, witness: the format theorem applied to a concrete outcome list
with one success (task id 3) and one failure. -/
theorem C7_report_formats_witness :
    ("3", "https://app.cvat.ai/tasks/3") ∈
      success_report (successes [Outcome.success "A" 3, Outcome.failure "B" "boom"]) ∧
    "ID: B, Error: boom" ∈
      failure_report (failures [Outcome.success "A" 3, Outcome.failure "B" "boom"]) :=
  ⟨(C7_report_formats [Outcome.success "A" 3, Outcome.failure "B" "boom"]).2.2.2.1
      "A" 3 (by decide),
   (C7_report_formats [Outcome.success "A" 3, Outcome.failure "B" "boom"]).2.2.2.2
      "B" "boom" (by decide)⟩

/-- C8: the worker count is fixed to `min(cpu_count(), 4)`, and since each
of the pool's workers is a sequential process executing at most one
submission call at any instant, the number of simultaneously executing
create-task calls never exceeds that count (hence never exceeds 4). -/
theorem C8_concurrency_bound (cpu_count : Nat)
    (running : WorkerInstant (num_processes cpu_count)) :
    inFlightCount running ≤ num_processes cpu_count ∧
    num_processes cpu_count = min cpu_count 4 ∧
    num_processes cpu_count ≤ 4 ∧
    num_processes cpu_count ≤ cpu_count := by
  refine ⟨?_, rfl, Nat.min_le_right _ _, Nat.min_le_left _ _⟩
  calc inFlightCount running
      ≤ (Finset.univ : Finset (Fin (num_processes cpu_count))).card :=
        Finset.card_filter_le _ _
    _ = num_processes cpu_count := by simp

/-- C9: the dispatcher returns the outcome of every record in the same
position that the record held in the input sequence, failed records
included: position `i` of the result is exactly
`create_single_task client records[i]`, carrying record `i`'s id. -/
theorem C9_order_preserving (client : Client) (records : List SourceRecord) :
    dispatch (Except.ok client) (some (toCsv records)) =
      Except.ok (records.map (create_single_task client)) ∧
    (∀ i (hi : i < records.length),
      (records.map (create_single_task client))[i]? =
        some (create_single_task client records[i]) ∧
      (create_single_task client records[i]).outcomeId = records[i].id) := by
  refine ⟨dispatch_toCsv client records, fun i hi => ⟨?_, outcomeId_create_single_task client _⟩⟩
  simp [List.getElem?_map, List.getElem?_eq_getElem hi]

/-- C9, witness: the order-preservation theorem applied to the concrete
client and records at position 1. -/
theorem C9_order_preserving_witness :
    (demoRecords.map (create_single_task demoClient))[1]? =
      some (create_single_task demoClient demoRecords[1]) :=
  ((C9_order_preserving demoClient demoRecords).2 1 (by decide)).1

/-- C10: splitting on commas never yields an empty sequence, so label
parsing returns at least one label for every input string; hence in both
variants every built task spec has the fixed descriptive label as its last
label and its label count is the token count plus one — in particular at
least two labels. -/
theorem C10_label_count (s : String) (r : SourceRecord) :
    parse_labels s ≠ [] ∧
    (build_task_spec r).labels.length = (parse_labels r.labels).length + 1 ∧
    (build_task_spec r).labels.getLast? = some descriptionLabel ∧
    2 ≤ (build_task_spec r).labels.length ∧
    (build_task_spec_slow r).labels.length = (parse_labels r.labels).length + 1 ∧
    (build_task_spec_slow r).labels.getLast? = some descriptionsLabelSlow ∧
    2 ≤ (build_task_spec_slow r).labels.length := by
  have hne : ∀ t : String, parse_labels t ≠ [] := by
    intro t
    simp [parse_labels, splitComma_ne_nil]
  have hpos : 1 ≤ (parse_labels r.labels).length :=
    List.length_pos.mpr (hne r.labels)
  refine ⟨hne s, ?_, List.getLast?_concat _, ?_, ?_, List.getLast?_concat _, ?_⟩
  · simp [build_task_spec]
  · simp [build_task_spec]
    omega
  · simp [build_task_spec_slow]
  · simp [build_task_spec_slow]
    omega

end Cvat
